import Mathlib

/-!
Shallow embedding of the moltworker process-supervision and reverse-proxy
layer (the Cloudflare Worker entry file: `buildEnvVars`,
`findExistingClawdbotProcess`, `ensureClawdbotGateway`, the `/debug/*`
gate middleware and the catch-all proxy handler).

External effects (the sandbox registry, port probes, process start/kill,
log fetches) are modelled by an `Oracle` record holding the outcome of
each effectful call that one supervision cycle can make, in program
order.  The supervisor is then a pure function of the oracle that
returns the result the JavaScript would return (a process reference or
a thrown error, as `Except String Process`) together with the ordered
trace of effect events it performed, so that temporal claims (what was
probed, killed, started, and in which order) can be stated.
-/

deriving instance DecidableEq for Except

namespace Moltworker

/-- Lifecycle status of a sandbox process (`Process.status` in the
`@cloudflare/sandbox` API; the source tests for `starting`/`running`). -/
inductive ProcStatus
  | starting
  | running
  | exited
  | failed
deriving DecidableEq, Repr

/-- A sandbox process as the worker observes it: opaque id, command line,
status.  (Timestamps and exit codes exist in the API but no supervised
decision reads them.) -/
structure Process where
  id : String
  command : String
  status : ProcStatus
deriving DecidableEq, Repr

/-- Buffered output of a process, as returned by `getLogs()`. -/
structure Logs where
  stdout : String
  stderr : String
deriving DecidableEq, Repr

/-- `pat.isPrefixOf` scanned along the list: JavaScript
`String.prototype.includes` on the underlying character lists. -/
def charsContain (pat : List Char) : List Char → Bool
  | [] => pat.isPrefixOf []
  | c :: t => pat.isPrefixOf (c :: t) || charsContain pat t

/-- JavaScript `s.includes(pat)`. -/
def strIncludes (s pat : String) : Bool :=
  charsContain pat.data s.data

/-- JavaScript truthiness of an optional string binding: present and
non-empty. -/
def truthy : Option String → Bool
  | none => false
  | some s => !(s == "")

/-- The worker's environment bindings (interface `ClawdbotEnv` in the
source; the `Sandbox` namespace binding is the sandbox handle and is not
part of the value environment modelled here). -/
structure ClawdbotEnv where
  ANTHROPIC_API_KEY : Option String := none
  OPENAI_API_KEY : Option String := none
  CLAWDBOT_GATEWAY_TOKEN : Option String := none
  CLAWDBOT_DEV_MODE : Option String := none
  CLAWDBOT_BIND_MODE : Option String := none
  TELEGRAM_BOT_TOKEN : Option String := none
  TELEGRAM_DM_POLICY : Option String := none
  DISCORD_BOT_TOKEN : Option String := none
  DISCORD_DM_POLICY : Option String := none
  SLACK_BOT_TOKEN : Option String := none
  SLACK_APP_TOKEN : Option String := none
  DEBUG_ROUTES_ENABLED : Option String := none
deriving DecidableEq, Repr

/-- One `if (env.X) envVars.X = env.X` step of `buildEnvVars`: the entry
is added exactly when the binding is truthy. -/
def pick (k : String) (v : Option String) : List (String × String) :=
  match v with
  | none => []
  | some s => if s == "" then [] else [(k, s)]

/-- `buildEnvVars`: the eleven recognized bindings, in source order, each
included only when present and non-empty. -/
def buildEnvVars (env : ClawdbotEnv) : List (String × String) :=
  pick ("ANTHROPIC_API_KEY") env.ANTHROPIC_API_KEY ++
  pick ("OPENAI_API_KEY") env.OPENAI_API_KEY ++
  pick ("CLAWDBOT_GATEWAY_TOKEN") env.CLAWDBOT_GATEWAY_TOKEN ++
  pick ("CLAWDBOT_DEV_MODE") env.CLAWDBOT_DEV_MODE ++
  pick ("CLAWDBOT_BIND_MODE") env.CLAWDBOT_BIND_MODE ++
  pick ("TELEGRAM_BOT_TOKEN") env.TELEGRAM_BOT_TOKEN ++
  pick ("TELEGRAM_DM_POLICY") env.TELEGRAM_DM_POLICY ++
  pick ("DISCORD_BOT_TOKEN") env.DISCORD_BOT_TOKEN ++
  pick ("DISCORD_DM_POLICY") env.DISCORD_DM_POLICY ++
  pick ("SLACK_BOT_TOKEN") env.SLACK_BOT_TOKEN ++
  pick ("SLACK_APP_TOKEN") env.SLACK_APP_TOKEN

/-- The key names `buildEnvVars` recognizes, in source order. -/
def recognizedKeys : List String :=
  [("ANTHROPIC_API_KEY"), ("OPENAI_API_KEY"), ("CLAWDBOT_GATEWAY_TOKEN"),
   ("CLAWDBOT_DEV_MODE"), ("CLAWDBOT_BIND_MODE"), ("TELEGRAM_BOT_TOKEN"),
   ("TELEGRAM_DM_POLICY"), ("DISCORD_BOT_TOKEN"), ("DISCORD_DM_POLICY"),
   ("SLACK_BOT_TOKEN"), ("SLACK_APP_TOKEN")]

/-- The environment binding a recognized key name refers to (`none` for a
name `buildEnvVars` does not recognize). -/
def recognizedLookup (k : String) (env : ClawdbotEnv) : Option String :=
  if k == "ANTHROPIC_API_KEY" then env.ANTHROPIC_API_KEY
  else if k == "OPENAI_API_KEY" then env.OPENAI_API_KEY
  else if k == "CLAWDBOT_GATEWAY_TOKEN" then env.CLAWDBOT_GATEWAY_TOKEN
  else if k == "CLAWDBOT_DEV_MODE" then env.CLAWDBOT_DEV_MODE
  else if k == "CLAWDBOT_BIND_MODE" then env.CLAWDBOT_BIND_MODE
  else if k == "TELEGRAM_BOT_TOKEN" then env.TELEGRAM_BOT_TOKEN
  else if k == "TELEGRAM_DM_POLICY" then env.TELEGRAM_DM_POLICY
  else if k == "DISCORD_BOT_TOKEN" then env.DISCORD_BOT_TOKEN
  else if k == "DISCORD_DM_POLICY" then env.DISCORD_DM_POLICY
  else if k == "SLACK_BOT_TOKEN" then env.SLACK_BOT_TOKEN
  else if k == "SLACK_APP_TOKEN" then env.SLACK_APP_TOKEN
  else none

/-- `proc.command.includes('start-clawdbot.sh') ||
proc.command.includes('clawdbot gateway')`. -/
def clawdbotCommand (cmd : String) : Bool :=
  strIncludes cmd ("start-clawdbot.sh") || strIncludes cmd ("clawdbot gateway")

/-- `proc.status === 'starting' || proc.status === 'running'`. -/
def liveStatus : ProcStatus → Bool
  | .starting => true
  | .running => true
  | .exited => false
  | .failed => false

/-- `findExistingClawdbotProcess`: first registry entry whose command line
matches the gateway invocation and whose status is live; a failed
`listProcesses()` call is caught and yields `none`. -/
def findExistingClawdbotProcess (registry : Except String (List Process)) :
    Option Process :=
  match registry with
  | .error _ => none
  | .ok procs =>
      procs.find? (fun p => clawdbotCommand p.command && liveStatus p.status)

/-- Outcomes of the external calls one supervision cycle can make, in
program order.  `Except.error` is a thrown JavaScript error carrying its
message.  `waitForPort` throws on timeout, so `probeExisting`/`probeNew`
are `.ok ()` for a reachable port and `.error msg` for a timeout.
`getLogs()` is called at most twice on the fresh process (once on the
success path, once inside the failure handler), hence two slots. -/
structure Oracle where
  registry : Except String (List Process)
  probeExisting : Except String Unit
  killResult : Except String Unit
  startResult : Except String Process
  probeNew : Except String Unit
  logsCall1 : Except String Logs
  logsCall2 : Except String Logs
deriving DecidableEq, Repr

/-- Effect trace entries of a supervision cycle. -/
inductive Event
  | probeOk (pid : String)
  | probeTimeout (pid : String)
  | killOk (pid : String)
  | killFail (pid : String)
  | started (pid : String) (envOpt : Option (List (String × String)))
  | startFail
  | gotLogs (pid : String)
  | logsFail (pid : String)
deriving DecidableEq, Repr

/-- The error message constructed on startup failure:
`` `Clawdbot gateway failed to start. Stderr: ${logs.stderr || '(empty)'}` ``. -/
def gatewayStartupMsg (stderr : String) : String :=
  "Clawdbot gateway failed to start. Stderr: " ++
    (if stderr == "" then ("(empty)") else stderr)

/-- `env: Object.keys(envVars).length > 0 ? envVars : undefined` — an
empty assembled map is passed as no override. -/
def startEnvOpt (envVars : List (String × String)) :
    Option (List (String × String)) :=
  if envVars.length > 0 then some envVars else none

/-- The fresh-start tail of `ensureClawdbotGateway`: start the process,
wait for its port, fetch logs.  Control flow of the source's nested
`try`/`catch`: when `waitForPort` or the success-path `getLogs()` throws
`e`, the handler calls `getLogs()` again and — because the constructed
`gatewayStartupMsg` error is raised inside the inner `try` block — that
constructed error is itself caught as `logErr`, so every failure branch
ends in `throw e`, rethrowing the original error. -/
def startNewGateway (o : Oracle) (env : ClawdbotEnv) :
    Except String Process × List Event :=
  let envOpt := startEnvOpt (buildEnvVars env)
  match o.startResult with
  | .error startErr => (.error startErr, [.startFail])
  | .ok p =>
    match o.probeNew with
    | .ok _ =>
      match o.logsCall1 with
      | .ok _ =>
          (.ok p, [.started p.id envOpt, .probeOk p.id, .gotLogs p.id])
      | .error e =>
        match o.logsCall2 with
        | .ok _ =>
            (.error e,
             [.started p.id envOpt, .probeOk p.id, .logsFail p.id,
              .gotLogs p.id])
        | .error _ =>
            (.error e,
             [.started p.id envOpt, .probeOk p.id, .logsFail p.id,
              .logsFail p.id])
    | .error e =>
      match o.logsCall1 with
      | .ok _ =>
          (.error e,
           [.started p.id envOpt, .probeTimeout p.id, .gotLogs p.id])
      | .error _ =>
          (.error e,
           [.started p.id envOpt, .probeTimeout p.id, .logsFail p.id])

/-- `ensureClawdbotGateway`: reuse a found live process when its port
probe succeeds; on probe timeout, best-effort kill it (a kill failure is
only logged) and fall through to a fresh start; with no process found,
start fresh directly. -/
def ensureClawdbotGateway (o : Oracle) (env : ClawdbotEnv) :
    Except String Process × List Event :=
  match findExistingClawdbotProcess o.registry with
  | some p =>
    match o.probeExisting with
    | .ok _ => (.ok p, [.probeOk p.id])
    | .error _ =>
      let killEv :=
        match o.killResult with
        | .ok _ => Event.killOk p.id
        | .error _ => Event.killFail p.id
      let r := startNewGateway o env
      (r.1, Event.probeTimeout p.id :: killEv :: r.2)
  | none => startNewGateway o env

/-- The fixed gateway service port. -/
def CLAWDBOT_PORT : Nat := 18789

/-- Outcome of the catch-all handler: a WebSocket relay or HTTP forward
to the supervised process's port, or a JSON error response with a
status, error summary, detail and hint. -/
inductive HandlerResult
  | wsProxy (pid : String) (port : Nat)
  | httpProxy (pid : String) (port : Nat)
  | errJson (status : Nat) (error details hint : String)
deriving DecidableEq, Repr

/-- An inbound request, as far as the handler inspects it. -/
structure Request where
  upgradeWebsocket : Bool
  path : String
deriving DecidableEq, Repr

def hintMissingKey : String :=
  "ANTHROPIC_API_KEY is not set. Run: wrangler secret put ANTHROPIC_API_KEY"

def hintOom : String :=
  "Gateway ran out of memory. Try again or check for memory leaks."

def hintDefault : String :=
  "Check worker logs with: wrangler tail"

def errGatewayFailed : String :=
  "Clawdbot gateway failed to start"

/-- Hint selection in the catch-all handler's failure path: missing
`ANTHROPIC_API_KEY` wins, else pattern-match the captured message for
out-of-memory markers, else the generic hint. -/
def hintFor (env : ClawdbotEnv) (errorMessage : String) : String :=
  if truthy env.ANTHROPIC_API_KEY = false then hintMissingKey
  else if strIncludes errorMessage ("heap out of memory") ||
            strIncludes errorMessage ("OOM") then hintOom
  else hintDefault

/-- The catch-all route `app.all`: run supervision, on failure answer a
503 JSON error with detail and hint, on success forward — WebSocket
upgrade requests through the duplex relay, everything else as plain
HTTP — to the fixed gateway port. -/
def handleProxyRequest (o : Oracle) (env : ClawdbotEnv) (req : Request) :
    HandlerResult × List Event :=
  match ensureClawdbotGateway o env with
  | (.ok p, evs) =>
      (if req.upgradeWebsocket then .wsProxy p.id CLAWDBOT_PORT
       else .httpProxy p.id CLAWDBOT_PORT, evs)
  | (.error msg, evs) =>
      (.errJson 503 errGatewayFailed msg (hintFor env msg), evs)

/-- The `/debug/*` gate: `c.env.DEBUG_ROUTES_ENABLED !== 'false'`; an
unset binding compares unequal to the string and leaves the routes
enabled. -/
def debugEnabled (env : ClawdbotEnv) : Bool :=
  match env.DEBUG_ROUTES_ENABLED with
  | some s => !(s == "false")
  | none => true

def debugDisabledBody : String :=
  "Debug routes are disabled"

def healthBody : String :=
  "clawdbot-sandbox"

/-- Paths the `/debug/*` middleware guards (Hono pattern semantics:
`/debug` itself and everything below `/debug/`). -/
def isDebugPath (path : String) : Bool :=
  path == "/debug" || List.isPrefixOf ("/debug/").data path.data

/-- The middleware body: when the gate is off, short-circuit with the
404 JSON body; otherwise pass through to the mounted debug router. -/
def dispatchDebug (env : ClawdbotEnv) (inner : Nat × String) :
    Nat × String :=
  if debugEnabled env then inner else (404, debugDisabledBody)

/-- Top-level routing: the liveness path answers statically, paths under
the introspection prefix go through the debug gate (`inner` standing for
the mounted debug router's response), and everything else is the proxied
catch-all (`proxied` standing for its response). -/
def appDispatch (env : ClawdbotEnv) (path : String) (inner : Nat × String)
    (proxied : Nat × String) : Nat × String :=
  if path == "/sandbox-health" then (200, healthBody)
  else if isDebugPath path then dispatchDebug env inner
  else proxied

/-- Process ids of kill attempts (successful or failed) in a trace. -/
def killPids : List Event → List String
  | [] => []
  | .killOk pid :: t => pid :: killPids t
  | .killFail pid :: t => pid :: killPids t
  | _ :: t => killPids t

/-- Process ids of start calls that returned a process, in trace order. -/
def startPids : List Event → List String
  | [] => []
  | .started pid _ :: t => pid :: startPids t
  | _ :: t => startPids t

/-- Whether an event is a kill attempt on the given process id. -/
def isKillOf (pid : String) : Event → Bool
  | .killOk p => p == pid
  | .killFail p => p == pid
  | _ => false

/-- Whether a handler outcome forwards to the gateway. -/
def isForward : HandlerResult → Bool
  | .wsProxy _ _ => true
  | .httpProxy _ _ => true
  | .errJson _ _ _ _ => false

/-! Concrete fixtures used by the witness theorems below. -/

/-- A registry entry for the gateway startup script, reported running. -/
def wProc1 : Process :=
  ⟨"gw-1", "/usr/local/bin/start-clawdbot.sh", .running⟩

/-- A second gateway process, as returned by a fresh start call. -/
def wProc2 : Process :=
  ⟨"gw-2", "/usr/local/bin/start-clawdbot.sh", .starting⟩

/-- A plain HTTP request to the root path. -/
def wReq : Request :=
  ⟨false, "/"⟩

/-- A WebSocket upgrade request to the root path. -/
def wReqWs : Request :=
  ⟨true, "/"⟩

/-- Empty registry; fresh start succeeds but the replacement's probe
times out while its buffered logs are retrievable with a non-empty
error stream. -/
def c1o : Oracle :=
  { registry := .ok []
    probeExisting := .ok ()
    killResult := .ok ()
    startResult := .ok wProc2
    probeNew := .error "waitForPort timed out"
    logsCall1 := .ok ⟨"", "boom"⟩
    logsCall2 := .ok ⟨"", "boom"⟩ }

/-- One running gateway whose probe times out; the replacement starts
and probes fine. -/
def c2o : Oracle :=
  { registry := .ok [wProc1]
    probeExisting := .error "timed out"
    killResult := .ok ()
    startResult := .ok wProc2
    probeNew := .ok ()
    logsCall1 := .ok ⟨"", ""⟩
    logsCall2 := .ok ⟨"", ""⟩ }

/-- One running gateway whose probe succeeds immediately. -/
def c3o : Oracle :=
  { registry := .ok [wProc1]
    probeExisting := .ok ()
    killResult := .ok ()
    startResult := .ok wProc2
    probeNew := .ok ()
    logsCall1 := .ok ⟨"", ""⟩
    logsCall2 := .ok ⟨"", ""⟩ }

/-- The registry query itself fails; the fresh start succeeds. -/
def c4o : Oracle :=
  { registry := .error "sandbox unreachable"
    probeExisting := .ok ()
    killResult := .ok ()
    startResult := .ok wProc2
    probeNew := .ok ()
    logsCall1 := .ok ⟨"", ""⟩
    logsCall2 := .ok ⟨"", ""⟩ }

/-- Empty registry with a successful fresh start. -/
def c5o : Oracle :=
  { registry := .ok []
    probeExisting := .ok ()
    killResult := .ok ()
    startResult := .ok wProc2
    probeNew := .ok ()
    logsCall1 := .ok ⟨"", ""⟩
    logsCall2 := .ok ⟨"", ""⟩ }

/-- An environment carrying only a model-provider key. -/
def c5env : ClawdbotEnv :=
  { ANTHROPIC_API_KEY := some "k" }

/-- One running gateway whose probe times out, so a kill occurs. -/
def c6o : Oracle :=
  { registry := .ok [wProc1]
    probeExisting := .error "timed out"
    killResult := .ok ()
    startResult := .ok wProc2
    probeNew := .ok ()
    logsCall1 := .ok ⟨"", ""⟩
    logsCall2 := .ok ⟨"", ""⟩ }

/-- A cycle whose fresh start never becomes reachable, so supervision
fails and the handler must answer 503. -/
def c7o : Oracle :=
  { registry := .ok []
    probeExisting := .ok ()
    killResult := .ok ()
    startResult := .ok wProc2
    probeNew := .error "waitForPort timed out"
    logsCall1 := .ok ⟨"", "boom"⟩
    logsCall2 := .ok ⟨"", "boom"⟩ }

/-- One running gateway whose probe times out; used with two different
kill outcomes. -/
def c9o : Oracle :=
  { registry := .ok [wProc1]
    probeExisting := .error "timed out"
    killResult := .ok ()
    startResult := .ok wProc2
    probeNew := .ok ()
    logsCall1 := .ok ⟨"", ""⟩
    logsCall2 := .ok ⟨"", ""⟩ }

/-- Environment with the introspection gate set to exactly `false`. -/
def envGateOff : ClawdbotEnv :=
  { DEBUG_ROUTES_ENABLED := some "false" }

/-- Environment with the introspection gate set to a non-`false`
string. -/
def envGateOther : ClawdbotEnv :=
  { DEBUG_ROUTES_ENABLED := some "off" }

end Moltworker

namespace Moltworker

/-! Helper lemmas shared by the claim theorems. -/

theorem mem_pick {k k0 v : String} {x : Option String} :
    (k, v) ∈ pick k0 x ↔ (x = some v ∧ v ≠ "" ∧ k = k0) := by
  cases x with
  | none => simp [pick]
  | some s =>
    by_cases h : s = ""
    · subst h
      simp [pick]
      rintro rfl
      simp
    · simp [pick, h]
      constructor
      · rintro ⟨rfl, rfl⟩
        exact ⟨rfl, h, rfl⟩
      · rintro ⟨rfl, hv, rfl⟩
        exact ⟨rfl, rfl⟩

theorem buildEnvVars_mem (env : ClawdbotEnv) (k v : String) :
    (k, v) ∈ buildEnvVars env ↔
      (k ∈ recognizedKeys ∧ recognizedLookup k env = some v ∧ v ≠ "") := by
  simp only [buildEnvVars, List.mem_append, mem_pick]
  constructor
  · rintro ((((((((((⟨h1, h2, rfl⟩ | ⟨h1, h2, rfl⟩) | ⟨h1, h2, rfl⟩) |
      ⟨h1, h2, rfl⟩) | ⟨h1, h2, rfl⟩) | ⟨h1, h2, rfl⟩) | ⟨h1, h2, rfl⟩) |
      ⟨h1, h2, rfl⟩) | ⟨h1, h2, rfl⟩) | ⟨h1, h2, rfl⟩) | ⟨h1, h2, rfl⟩) <;>
    exact ⟨by decide, by simp [recognizedLookup, h1], h2⟩
  · rintro ⟨hk, hl, hv⟩
    simp only [recognizedKeys, List.mem_cons, List.not_mem_nil, or_false] at hk
    rcases hk with rfl | rfl | rfl | rfl | rfl | rfl | rfl | rfl | rfl | rfl | rfl <;>
      simp [recognizedLookup] at hl <;>
      simp [hl, hv]

theorem startEnvOpt_eq (l : List (String × String)) :
    startEnvOpt l = if l = [] then none else some l := by
  by_cases h : l = []
  · subst h
    simp [startEnvOpt]
  · have hp : 0 < l.length := List.length_pos.mpr h
    simp [startEnvOpt, hp, h]

theorem startNew_ok_mem_probeOk (o : Oracle) (env : ClawdbotEnv) (p : Process)
    (h : (startNewGateway o env).1 = .ok p) :
    Event.probeOk p.id ∈ (startNewGateway o env).2 := by
  obtain ⟨reg, pe, kr, sr, pn, lc1, lc2⟩ := o
  unfold startNewGateway at *
  rcases sr with es | q
  · simp at h
  · rcases pn with en | u
    · rcases lc1 with e1 | lg <;> simp at h
    · rcases lc1 with e1 | lg
      · rcases lc2 with e2 | lg2 <;> simp at h
      · simp at h ⊢
        subst h
        simp

theorem startNew_no_kill (o : Oracle) (env : ClawdbotEnv) (pid : String) :
    ∀ e ∈ (startNewGateway o env).2, isKillOf pid e = false := by
  obtain ⟨reg, pe, kr, sr, pn, lc1, lc2⟩ := o
  unfold startNewGateway
  rcases sr with es | q <;>
    rcases pn with en | u <;>
    rcases lc1 with e1 | lg <;>
    rcases lc2 with e2 | lg2 <;>
    · rintro e he
      simp at he
      rcases he with rfl | rfl | rfl | rfl <;> rfl

theorem ensure_ok_mem_probeOk (o : Oracle) (env : ClawdbotEnv) (p : Process)
    (h : (ensureClawdbotGateway o env).1 = .ok p) :
    Event.probeOk p.id ∈ (ensureClawdbotGateway o env).2 := by
  unfold ensureClawdbotGateway at *
  rcases hf : findExistingClawdbotProcess o.registry with _ | p0 <;>
      simp only [hf] at h ⊢
  · exact startNew_ok_mem_probeOk o env p h
  · obtain ⟨reg, pe, kr, sr, pn, lc1, lc2⟩ := o
    rcases pe with ee | u
    · simp only [List.mem_cons]
      exact Or.inr (Or.inr (startNew_ok_mem_probeOk _ env p h))
    · simp at h ⊢
      subst h
      simp

end Moltworker

namespace Moltworker

/-! Claim theorems and their witnesses. -/

/-- Claim C1: when the fresh gateway's readiness probe times out, the
source intends to fail with the constructed error embedding the captured
error stream; as written, however, the constructed error is raised inside
the inner try block and caught as `logErr`, so `ensureClawdbotGateway`
always rethrows the original timeout error — whether or not fetching the
buffered output succeeds.  This theorem evaluates the code's actual
behaviour: the result is the original probe error in every case. -/
theorem newProbeTimeout_rethrows_original (o : Oracle) (env : ClawdbotEnv)
    (q : Process) (em : String)
    (hreg : findExistingClawdbotProcess o.registry = none)
    (hstart : o.startResult = .ok q)
    (hprobe : o.probeNew = .error em) :
    (ensureClawdbotGateway o env).1 = .error em := by
  obtain ⟨reg, pe, kr, sr, pn, lc1, lc2⟩ := o
  simp only at hreg hstart hprobe
  subst hstart hprobe
  unfold ensureClawdbotGateway
  rw [hreg]
  unfold startNewGateway
  rcases lc1 with e1 | lg <;> rfl

/-- Witness for C1 at the failing input: the probe times out with
message `waitForPort timed out`, `getLogs` succeeds with stderr `boom`,
yet the failure surfaced is the original timeout error and not the
constructed message embedding the error stream. -/
theorem newProbeTimeout_rethrows_original_witness :
    findExistingClawdbotProcess c1o.registry = none ∧
    c1o.startResult = Except.ok wProc2 ∧
    c1o.probeNew = Except.error "waitForPort timed out" ∧
    (ensureClawdbotGateway c1o {}).1 = Except.error "waitForPort timed out" ∧
    (ensureClawdbotGateway c1o {}).1 ≠
      Except.error (gatewayStartupMsg "boom") :=
  ⟨by decide, by decide, by decide,
    newProbeTimeout_rethrows_original c1o {} wProc2 ("waitForPort timed out")
      (by decide) (by decide) (by decide),
    by decide⟩

/-- Claim C2: an existing process reported running whose probe times out
is killed (exactly one kill attempt, on its id), exactly one replacement
is started, and the process returned is the replacement, not the
original. -/
theorem restart_stuck_returns_new_process (o : Oracle) (env : ClawdbotEnv)
    (p q : Process) (em : String) (lg : Logs)
    (hfind : findExistingClawdbotProcess o.registry = some p)
    (_hstatus : p.status = ProcStatus.running)
    (hprobe : o.probeExisting = .error em)
    (hstart : o.startResult = .ok q)
    (hnew : o.probeNew = .ok ())
    (hlogs : o.logsCall1 = .ok lg)
    (hid : q.id ≠ p.id) :
    (ensureClawdbotGateway o env).1 = .ok q ∧
    killPids (ensureClawdbotGateway o env).2 = [p.id] ∧
    startPids (ensureClawdbotGateway o env).2 = [q.id] ∧
    q.id ≠ p.id := by
  obtain ⟨reg, pe, kr, sr, pn, lc1, lc2⟩ := o
  simp only at hfind hprobe hstart hnew hlogs
  subst hprobe hstart hnew hlogs
  unfold ensureClawdbotGateway startNewGateway
  rw [hfind]
  rcases kr with ek | uk <;> exact ⟨rfl, rfl, rfl, hid⟩

/-- Witness for C2: registry holds the running `gw-1`, its probe times
out, the replacement `gw-2` starts and probes fine; the result is
`gw-2`, one kill of `gw-1`, one start of `gw-2`. -/
theorem restart_stuck_returns_new_process_witness :
    findExistingClawdbotProcess c2o.registry = some wProc1 ∧
    wProc1.status = ProcStatus.running ∧
    c2o.probeExisting = Except.error "timed out" ∧
    ((ensureClawdbotGateway c2o {}).1 = Except.ok wProc2 ∧
      killPids (ensureClawdbotGateway c2o {}).2 = ["gw-1"] ∧
      startPids (ensureClawdbotGateway c2o {}).2 = ["gw-2"] ∧
      wProc2.id ≠ wProc1.id) :=
  ⟨by decide, by decide, by decide,
    restart_stuck_returns_new_process c2o {} wProc1 wProc2 ("timed out")
      ⟨"", ""⟩ (by decide) (by decide) (by decide) (by decide) (by decide)
      (by decide) (by decide)⟩

/-- Claim C3: the handler forwards a request (by WebSocket relay or by
plain HTTP proxy) to a process id only when a readiness probe succeeded
for that process during the current supervision cycle: every forwarding
outcome carries a `probeOk` event for the forwarded-to id in the
cycle's trace. -/
theorem forward_requires_probe_success (o : Oracle) (env : ClawdbotEnv)
    (req : Request) (pid : String) (port : Nat)
    (h : (handleProxyRequest o env req).1 = .wsProxy pid port ∨
         (handleProxyRequest o env req).1 = .httpProxy pid port) :
    Event.probeOk pid ∈ (handleProxyRequest o env req).2 := by
  rcases hr : ensureClawdbotGateway o env with ⟨res, evs⟩
  unfold handleProxyRequest at h ⊢
  rw [hr] at h ⊢
  rcases res with msg | p
  · simp at h
  · have hp : Event.probeOk p.id ∈ evs := by
      have h1 : (ensureClawdbotGateway o env).1 = .ok p := by rw [hr]
      have h2 := ensure_ok_mem_probeOk o env p h1
      rwa [hr] at h2
    by_cases hw : req.upgradeWebsocket
    · simp only [hw, if_true] at h ⊢
      rcases h with h | h
      · simp at h
        obtain ⟨h1, h2⟩ := h
        rw [← h1]
        exact hp
      · simp at h
    · simp only [hw, if_false] at h ⊢
      rcases h with h | h
      · simp at h
      · simp at h
        obtain ⟨h1, h2⟩ := h
        rw [← h1]
        exact hp

/-- Witness for C3: an existing healthy gateway is reused and a
WebSocket request is relayed to it; the trace holds its successful
probe. -/
theorem forward_requires_probe_success_witness :
    ((handleProxyRequest c3o {} wReqWs).1 = HandlerResult.wsProxy "gw-1" 18789 ∨
      (handleProxyRequest c3o {} wReqWs).1 =
        HandlerResult.httpProxy "gw-1" 18789) ∧
    Event.probeOk "gw-1" ∈ (handleProxyRequest c3o {} wReqWs).2 :=
  ⟨by decide,
    forward_requires_probe_success c3o {} wReqWs ("gw-1") 18789 (by decide)⟩

/-- Claim C4: a failed registry query is treated as "no process found":
the lookup returns none and `ensureClawdbotGateway` proceeds exactly as
the fresh-start path does, rather than surfacing the registry fault. -/
theorem registry_error_treated_as_no_process (o : Oracle) (env : ClawdbotEnv)
    (msg : String) (hreg : o.registry = .error msg) :
    findExistingClawdbotProcess o.registry = none ∧
    ensureClawdbotGateway o env = startNewGateway o env := by
  have hf : findExistingClawdbotProcess o.registry = none := by
    rw [hreg]
    rfl
  refine ⟨hf, ?_⟩
  unfold ensureClawdbotGateway
  rw [hf]

/-- Witness for C4: with `listProcesses` failing, supervision equals the
fresh-start path and still returns the newly started process. -/
theorem registry_error_treated_as_no_process_witness :
    c4o.registry = Except.error "sandbox unreachable" ∧
    (findExistingClawdbotProcess c4o.registry = none ∧
      ensureClawdbotGateway c4o {} = startNewGateway c4o {}) ∧
    (ensureClawdbotGateway c4o {}).1 = Except.ok wProc2 :=
  ⟨by decide,
    registry_error_treated_as_no_process c4o {} ("sandbox unreachable")
      (by decide),
    by decide⟩

/-- Claim C5: the assembled gateway environment contains a key exactly
when the corresponding recognized binding is present and non-empty, with
the same value; and the start call receives no environment override when
the assembled map is empty, and the full map otherwise. -/
theorem env_assembly_contract (o : Oracle) (env : ClawdbotEnv) (q : Process)
    (hreg : findExistingClawdbotProcess o.registry = none)
    (hstart : o.startResult = .ok q) :
    (∀ k v, ((k, v) ∈ buildEnvVars env ↔
      (k ∈ recognizedKeys ∧ recognizedLookup k env = some v ∧ v ≠ ""))) ∧
    (buildEnvVars env = [] →
      Event.started q.id none ∈ (ensureClawdbotGateway o env).2) ∧
    (buildEnvVars env ≠ [] →
      Event.started q.id (some (buildEnvVars env)) ∈
        (ensureClawdbotGateway o env).2) := by
  obtain ⟨reg, pe, kr, sr, pn, lc1, lc2⟩ := o
  simp only at hreg hstart
  subst hstart
  refine ⟨fun k v => buildEnvVars_mem env k v, ?_, ?_⟩
  · intro hempty
    unfold ensureClawdbotGateway
    rw [hreg]
    unfold startNewGateway
    rcases pn with en | u <;> rcases lc1 with e1 | lg <;>
      rcases lc2 with e2 | lg2 <;>
      simp [startEnvOpt_eq, hempty]
  · intro hne
    unfold ensureClawdbotGateway
    rw [hreg]
    unfold startNewGateway
    rcases pn with en | u <;> rcases lc1 with e1 | lg <;>
      rcases lc2 with e2 | lg2 <;>
      simp [startEnvOpt_eq, hne]

/-- Witness for C5: with only `ANTHROPIC_API_KEY` set, that single entry
is the assembled map and is what the start call receives; with an empty
environment the start call receives no override. -/
theorem env_assembly_contract_witness :
    findExistingClawdbotProcess c5o.registry = none ∧
    c5o.startResult = Except.ok wProc2 ∧
    Event.started "gw-2" (some [(("ANTHROPIC_API_KEY"), ("k"))]) ∈
      (ensureClawdbotGateway c5o c5env).2 ∧
    Event.started "gw-2" none ∈ (ensureClawdbotGateway c5o {}).2 :=
  ⟨by decide, by decide,
    by
      have h := (env_assembly_contract c5o c5env wProc2 (by decide)
        (by decide)).2.2 (by decide)
      have hb : buildEnvVars c5env = [(("ANTHROPIC_API_KEY"), ("k"))] := by
        decide
      rwa [hb] at h,
    (env_assembly_contract c5o {} wProc2 (by decide) (by decide)).2.1
      (by decide)⟩

end Moltworker

namespace Moltworker

/-- Claim C6: a kill attempt occurs only in the restart-stuck branch:
whenever the cycle's trace contains a kill of some process id, the trace
begins with the completed, timed-out probe of that same id, immediately
followed by the kill — so no kill is ever reached for a process whose
probe succeeded, nor before its probe completed. -/
theorem kill_only_after_probe_timeout (o : Oracle) (env : ClawdbotEnv)
    (pid : String)
    (h : ∃ e ∈ (ensureClawdbotGateway o env).2, isKillOf pid e = true) :
    ∃ killEv rest,
      (ensureClawdbotGateway o env).2 =
        Event.probeTimeout pid :: killEv :: rest ∧
      isKillOf pid killEv = true ∧
      Event.probeOk pid ∉ [Event.probeTimeout pid, killEv] := by
  obtain ⟨reg, pe, kr, sr, pn, lc1, lc2⟩ := o
  unfold ensureClawdbotGateway at *
  rcases hf : findExistingClawdbotProcess reg with _ | p <;>
      simp only [hf] at h ⊢
  · obtain ⟨e, he, hk⟩ := h
    have hz := startNew_no_kill ⟨reg, pe, kr, sr, pn, lc1, lc2⟩ env pid e he
    rw [hz] at hk
    exact absurd hk (by simp)
  · rcases pe with ee | u
    · obtain ⟨e, he, hk⟩ := h
      simp only [List.mem_cons] at he
      rcases he with rfl | rfl | he
      · simp [isKillOf] at hk
      · rcases kr with ek | uk
        · simp [isKillOf] at hk
          subst hk
          exact ⟨Event.killFail p.id, _, rfl, by simp [isKillOf], by simp⟩
        · simp [isKillOf] at hk
          subst hk
          exact ⟨Event.killOk p.id, _, rfl, by simp [isKillOf], by simp⟩
      · have hz := startNew_no_kill ⟨reg, .error ee, kr, sr, pn, lc1, lc2⟩
          env pid e he
        rw [hz] at hk
        exact absurd hk (by simp)
    · obtain ⟨e, he, hk⟩ := h
      simp at he
      subst he
      simp [isKillOf] at hk

/-- Witness for C6: in the restart-stuck run, the kill of `gw-1` is
present and the trace indeed starts with that process's timed-out probe
followed by the kill. -/
theorem kill_only_after_probe_timeout_witness :
    (∃ e ∈ (ensureClawdbotGateway c6o {}).2, isKillOf ("gw-1") e = true) ∧
    (∃ killEv rest,
      (ensureClawdbotGateway c6o {}).2 =
        Event.probeTimeout "gw-1" :: killEv :: rest ∧
      isKillOf ("gw-1") killEv = true ∧
      Event.probeOk "gw-1" ∉ [Event.probeTimeout "gw-1", killEv]) :=
  ⟨by decide,
    kill_only_after_probe_timeout c6o {} ("gw-1") (by decide)⟩

/-- Claim C7: every supervision failure makes the handler answer a 503
JSON response carrying the error detail and the hint computed from the
environment and the captured diagnostic text; no forwarding happens and
the handler performs no further supervision attempt (its trace is
exactly the one failed cycle's trace), so the hint cannot influence any
retry. -/
theorem supervision_failure_yields_503_hint (o : Oracle) (env : ClawdbotEnv)
    (req : Request) (msg : String)
    (h : (ensureClawdbotGateway o env).1 = .error msg) :
    (handleProxyRequest o env req).1 =
        .errJson 503 errGatewayFailed msg (hintFor env msg) ∧
    isForward (handleProxyRequest o env req).1 = false ∧
    (handleProxyRequest o env req).2 = (ensureClawdbotGateway o env).2 := by
  rcases hr : ensureClawdbotGateway o env with ⟨res, evs⟩
  have hres : res = .error msg := by
    rw [hr] at h
    exact h
  subst hres
  unfold handleProxyRequest
  rw [hr]
  exact ⟨rfl, rfl, rfl⟩

/-- Witness for C7: the failed cycle of `c7o` under an empty environment
yields the 503 JSON response with the missing-credential hint and no
forward. -/
theorem supervision_failure_yields_503_hint_witness :
    (ensureClawdbotGateway c7o {}).1 = Except.error "waitForPort timed out" ∧
    ((handleProxyRequest c7o {} wReq).1 =
        HandlerResult.errJson 503 errGatewayFailed ("waitForPort timed out")
          (hintFor {} ("waitForPort timed out")) ∧
      isForward (handleProxyRequest c7o {} wReq).1 = false ∧
      (handleProxyRequest c7o {} wReq).2 = (ensureClawdbotGateway c7o {}).2) :=
  ⟨by decide,
    supervision_failure_yields_503_hint c7o {} wReq ("waitForPort timed out")
      (by decide)⟩

/-- Claim C8: with the introspection gate disabled, every path under the
introspection prefix is answered by the gate's 404 "not found" response
— never a 403. -/
theorem debug_disabled_answers_404 (env : ClawdbotEnv) (path : String)
    (inner proxied : Nat × String)
    (hoff : env.DEBUG_ROUTES_ENABLED = some "false")
    (hpath : isDebugPath path = true) :
    appDispatch env path inner proxied = (404, debugDisabledBody) ∧
    (appDispatch env path inner proxied).1 = 404 ∧
    (appDispatch env path inner proxied).1 ≠ 403 := by
  have hne : path ≠ "/sandbox-health" := by
    intro hp
    subst hp
    exact absurd hpath (by decide)
  refine ⟨?_, ?_, ?_⟩ <;>
    simp [appDispatch, hne, hpath, dispatchDebug, debugEnabled, hoff]

/-- Witness for C8: with `DEBUG_ROUTES_ENABLED` set to `false`, the
`/debug/logs` path gets the 404 body regardless of what the mounted
debug router would have answered. -/
theorem debug_disabled_answers_404_witness :
    envGateOff.DEBUG_ROUTES_ENABLED = some "false" ∧
    isDebugPath "/debug/logs" = true ∧
    (appDispatch envGateOff "/debug/logs" (200, "inner") (502, "proxied") =
        (404, debugDisabledBody) ∧
      (appDispatch envGateOff "/debug/logs" (200, "inner")
          (502, "proxied")).1 = 404 ∧
      (appDispatch envGateOff "/debug/logs" (200, "inner")
          (502, "proxied")).1 ≠ 403) :=
  ⟨by decide, by decide,
    debug_disabled_answers_404 envGateOff ("/debug/logs") (200, "inner")
      (502, "proxied") (by decide) (by decide)⟩

/-- Claim C9: a kill failure on the stuck process is not propagated:
supervision under any two kill outcomes produces the same result, and in
both cases the outcome is exactly the fresh-start path's outcome. -/
theorem kill_failure_not_propagated (o : Oracle) (env : ClawdbotEnv)
    (p : Process) (em : String) (k1 k2 : Except String Unit)
    (hfind : findExistingClawdbotProcess o.registry = some p)
    (hprobe : o.probeExisting = .error em) :
    (ensureClawdbotGateway { o with killResult := k1 } env).1 =
      (ensureClawdbotGateway { o with killResult := k2 } env).1 ∧
    (ensureClawdbotGateway { o with killResult := k1 } env).1 =
      (startNewGateway { o with killResult := k1 } env).1 := by
  obtain ⟨reg, pe, kr, sr, pn, lc1, lc2⟩ := o
  simp only at hfind hprobe
  subst hprobe
  unfold ensureClawdbotGateway
  rw [hfind]
  exact ⟨rfl, rfl⟩

/-- Witness for C9: a raising kill and a successful kill produce the same
supervision result, which is the fresh-start result — the new process. -/
theorem kill_failure_not_propagated_witness :
    findExistingClawdbotProcess c9o.registry = some wProc1 ∧
    c9o.probeExisting = Except.error "timed out" ∧
    ((ensureClawdbotGateway
        { c9o with killResult := Except.error "kill failed" } {}).1 =
      (ensureClawdbotGateway { c9o with killResult := Except.ok () } {}).1 ∧
     (ensureClawdbotGateway
        { c9o with killResult := Except.error "kill failed" } {}).1 =
      (startNewGateway
        { c9o with killResult := Except.error "kill failed" } {}).1) ∧
    (ensureClawdbotGateway
        { c9o with killResult := Except.error "kill failed" } {}).1 =
      Except.ok wProc2 :=
  ⟨by decide, by decide,
    kill_failure_not_propagated c9o {} wProc1 ("timed out")
      (Except.error "kill failed") (Except.ok ()) (by decide) (by decide),
    by decide⟩

/-- Claim C10: the introspection gate is open by default — it is enabled
exactly when `DEBUG_ROUTES_ENABLED` is not the literal string `false`;
in particular an unset binding leaves it enabled, and whenever the gate
is enabled any introspection path reaches the mounted debug router. -/
theorem debug_gate_open_by_default (env : ClawdbotEnv) (path : String)
    (inner proxied : Nat × String) :
    (debugEnabled env = true ↔ env.DEBUG_ROUTES_ENABLED ≠ some "false") ∧
    (env.DEBUG_ROUTES_ENABLED = none → debugEnabled env = true) ∧
    (isDebugPath path = true → debugEnabled env = true →
      appDispatch env path inner proxied = inner) := by
  refine ⟨?_, ?_, ?_⟩
  · unfold debugEnabled
    rcases hd : env.DEBUG_ROUTES_ENABLED with _ | s
    · simp
    · simp
  · intro h
    unfold debugEnabled
    rw [h]
  · intro hp he
    have hne : path ≠ "/sandbox-health" := by
      intro hq
      subst hq
      exact absurd hp (by decide)
    simp [appDispatch, hne, hp, dispatchDebug, he]

/-- Witness for C10: with the gate set to `off` (any value other than
`false`), the introspection route stays reachable and the inner debug
response is returned. -/
theorem debug_gate_open_by_default_witness :
    isDebugPath "/debug/processes" = true ∧
    debugEnabled envGateOther = true ∧
    appDispatch envGateOther "/debug/processes" (200, "inner")
        (502, "proxied") = (200, "inner") :=
  ⟨by decide, by decide,
    (debug_gate_open_by_default envGateOther ("/debug/processes")
        (200, "inner") (502, "proxied")).2.2 (by decide) (by decide)⟩

end Moltworker
